import Mathlib

/-!
Verification of the terraform_module_tools core: a shallow embedding of the
module-reference normalizer, name deriver, argument synthesizer, tool
assembler, batch driver and provider factory found under
`terraform_module_tools/tools/`, together with theorems settling the
specification claims about them.

Python strings are modelled as Lean `String` (length counts code points, as
Python `len` does on `str`); Python `None` and heterogeneous dictionary
values are modelled by the `PyVal` type below; fallible Python code (dict
access that can raise `KeyError`, `AttributeError`, unpacking) is modelled
in `Except String`.
-/

set_option autoImplicit false

/-- Model of a JSON-like Python value: `None`, booleans, integers, strings,
lists and string-keyed dictionaries. Floats are not modelled; none of the
verified claims depends on float-valued configuration. -/
inductive PyVal where
  | vnone : PyVal
  | vbool : Bool → PyVal
  | vint : Int → PyVal
  | vstr : String → PyVal
  | vlist : List PyVal → PyVal
  | vdict : List (String × PyVal) → PyVal

/-- Python truthiness: `None`, `False`, `0`, `""`, `[]` and the empty dict are
falsy, everything else is truthy. -/
def pyTruthy : PyVal → Bool
  | PyVal.vnone => false
  | PyVal.vbool b => b
  | PyVal.vint n => n != 0
  | PyVal.vstr s => s != ""
  | PyVal.vlist l => !l.isEmpty
  | PyVal.vdict d => !d.isEmpty

/-- True exactly on the Python `None` value. -/
def pyIsNone : PyVal → Bool
  | PyVal.vnone => true
  | _ => false

/-- True on dictionaries and lists, the values the source treats as compound
(`isinstance(value, (dict, list))`). -/
def pyIsCompound : PyVal → Bool
  | PyVal.vlist _ => true
  | PyVal.vdict _ => true
  | _ => false

/-- First binding of a key in an association list, modelling Python dict
indexing (dicts are modelled as association lists with distinct keys). -/
def pyLookup (k : String) : List (String × PyVal) → Option PyVal
  | [] => none
  | (k2, v) :: rest => if k2 = k then some v else pyLookup k rest

/-- Python `dict.get(k, d)`: the bound value when the key is present, the
supplied fallback otherwise. -/
def pyGetD (d : List (String × PyVal)) (k : String) (fallback : PyVal) : PyVal :=
  (pyLookup k d).getD fallback

/-- Python ASCII lower-casing of a string. -/
def pyLower (s : String) : String :=
  String.mk (s.toList.map Char.toLower)

/-- ASCII whitespace test used by `str.strip()`. -/
def pyIsSpace (c : Char) : Bool :=
  c == ' ' || c == '\t' || c == '\n' || c == '\r' || c == '\x0b' || c == '\x0c'

/-- Drop elements satisfying `p` from both ends of a list. -/
def stripBoth {a : Type} (p : a → Bool) (l : List a) : List a :=
  ((l.dropWhile p).reverse.dropWhile p).reverse

/-- Python `str.strip()`: drop whitespace from both ends. -/
def pyStrip (s : String) : String :=
  String.mk (stripBoth pyIsSpace s.toList)

/-- Python `str.rstrip(chars)`: drop any trailing characters belonging to the
given set (a character set, not a suffix). -/
def pyRstripChars (s : String) (cs : List Char) : String :=
  String.mk ((s.toList.reverse.dropWhile (fun c => cs.contains c)).reverse)

/-- Split a character list at every occurrence of a separator character,
keeping empty segments, as Python `str.split(sep)` does. -/
def splitChar (c : Char) : List Char → List (List Char)
  | [] => [[]]
  | x :: xs =>
    if x = c then [] :: splitChar c xs
    else
      match splitChar c xs with
      | [] => [[x]]
      | h :: t => (x :: h) :: t

/-- Python `str.split(sep)` for a one-character separator. -/
def pySplit (s : String) (c : Char) : List String :=
  (splitChar c s.toList).map String.mk

/-- Whether `sub` occurs as a contiguous segment of `l`. -/
def containsSeg (sub : List Char) : List Char → Bool
  | [] => sub.isEmpty
  | c :: rest => sub.isPrefixOf (c :: rest) || containsSeg sub rest

/-- Python `sub in s` substring test. -/
def pyIn (sub s : String) : Bool :=
  containsSeg sub.toList s.toList

/-- Python `s.startswith(p)`. -/
def pyStartsWith (s p : String) : Bool :=
  p.toList.isPrefixOf s.toList

/-- The prefix of `l` before the first occurrence of the segment `sep`
(`s.split(sep)[0]` in Python). -/
def takeUntilSeg (sep : List Char) : List Char → List Char
  | [] => []
  | c :: rest =>
    if sep.isPrefixOf (c :: rest) then []
    else c :: takeUntilSeg sep rest

/-- Python `s.split(sep)[0]` for a multi-character separator. -/
def pySplitFirst (s sep : String) : String :=
  String.mk (takeUntilSeg sep.toList s.toList)

/-- Python `s.replace(a, b)` for single characters. -/
def pyReplaceChar (s : String) (a b : Char) : String :=
  String.mk (s.toList.map (fun c => if c = a then b else c))

/-- Python slice `s[:n]`. -/
def pyTake (s : String) (n : Nat) : String :=
  String.mk (s.toList.take n)

/-- Characters kept by `re.sub(r'[^\w_]', '', name)` on ASCII input:
letters, digits and underscore. -/
def pyIsWordChar (c : Char) : Bool :=
  c.isAlphanum || c == '_'

/-- Apply `re.sub(r'[^\w_]', '', name)` to an ASCII string. -/
def pyFilterWord (s : String) : String :=
  String.mk (s.toList.filter pyIsWordChar)

mutual

/-- `json.dumps` on the modelled values, with the default `", "` and `": "`
separators. String escaping is not modelled; the configuration strings in
scope contain no characters that `json.dumps` escapes. -/
def jsonDumps : PyVal → String
  | PyVal.vnone => "null"
  | PyVal.vbool true => "true"
  | PyVal.vbool false => "false"
  | PyVal.vint n => toString n
  | PyVal.vstr s => "\"" ++ s ++ "\""
  | PyVal.vlist l => "[" ++ jsonDumpsList l ++ "]"
  | PyVal.vdict d => "\x7b" ++ jsonDumpsDict d ++ "\x7d"

/-- Comma-separated rendering of a list body for `jsonDumps`. -/
def jsonDumpsList : List PyVal → String
  | [] => ""
  | [x] => jsonDumps x
  | x :: y :: rest => jsonDumps x ++ ", " ++ jsonDumpsList (y :: rest)

/-- Comma-separated rendering of a dictionary body for `jsonDumps`. -/
def jsonDumpsDict : List (String × PyVal) → String
  | [] => ""
  | [(k, v)] => "\"" ++ k ++ "\": " ++ jsonDumps v
  | (k, v) :: y :: rest => "\"" ++ k ++ "\": " ++ jsonDumps v ++ ", " ++ jsonDumpsDict (y :: rest)

end

/-- Python `str(v)` on the modelled values. Scalars render as in Python;
the source only ever applies `str` to scalars (compounds are routed to
`json.dumps` first), so compounds are rendered via `jsonDumps` here. -/
def pyStr : PyVal → String
  | PyVal.vnone => "None"
  | PyVal.vbool true => "True"
  | PyVal.vbool false => "False"
  | PyVal.vint n => toString n
  | PyVal.vstr s => s
  | PyVal.vlist l => jsonDumps (PyVal.vlist l)
  | PyVal.vdict d => jsonDumps (PyVal.vdict d)

/-- Digits-only parse of a character list (`none` when empty or non-digit). -/
def natOfDigits : List Char → Option Nat
  | [] => none
  | l => if l.all Char.isDigit then some (l.foldl (fun acc c => acc * 10 + c.toNat - 48) 0) else none

/-- Unsigned part of Python `float(s)` truncated toward zero: digits with an
optional fractional part, as in `"3"`, `"3.5"`, `"3."`, `".5"`. Exponent,
infinity and NaN forms are not modelled; no claim exercises them. -/
def floatTruncOfChars (l : List Char) : Option Nat :=
  match splitChar '.' l with
  | [intPart] => natOfDigits intPart
  | [intPart, fracPart] =>
    if intPart.isEmpty && fracPart.isEmpty then none
    else if intPart.all Char.isDigit && fracPart.all Char.isDigit then
      if intPart.isEmpty then some 0 else natOfDigits intPart
    else none
  | _ => none

/-- Python `int(float(v))` used for default coercion to the `int` argument
type; `none` models the `ValueError` / `TypeError` the source catches. -/
def pyIntOfFloat : PyVal → Option Int
  | PyVal.vint n => some n
  | PyVal.vbool true => some 1
  | PyVal.vbool false => some 0
  | PyVal.vstr s =>
    (match (pyStrip s).toList with
     | '-' :: rest => (floatTruncOfChars rest).map (fun n => -(n : Int))
     | '+' :: rest => (floatTruncOfChars rest).map (fun n => (n : Int))
     | l => (floatTruncOfChars l).map (fun n => (n : Int)))
  | _ => none

/-!
## Argument Synthesizer
Embedding of `tools/terraform_module_tool.py`:
`map_terraform_type_to_arg_type`, `truncate_description`, and the
per-variable argument construction of `TerraformModuleTool.initialize_tool`.
-/

/-- Upper bound on synthesized descriptions (`MAX_DESCRIPTION_LENGTH`). -/
def MAX_DESCRIPTION_LENGTH : Nat := 1024

/-- The base type of a Terraform type string: the part before a parenthesis,
lower-cased (`tf_type.split('(')[0].lower()`). -/
def base_type_of (tf_type : String) : String :=
  pyLower (String.mk (tf_type.toList.takeWhile (fun c => c ≠ '(')))

/-- Embedding of `map_terraform_type_to_arg_type` (terraform_module_tool.py
lines 15-26): `bool` to `"bool"`, `number` to `"int"`, everything else to
`"str"`. -/
def map_terraform_type_to_arg_type (tf_type : String) : String :=
  let base_type := base_type_of tf_type
  if base_type = "bool" then "bool"
  else if base_type = "number" then "int"
  else "str"

/-- The `var_config` dictionary of one discovered variable, as consumed by
the argument synthesizer. The `vtype` field is the mandatory `'type'` entry
(accessed unguarded by the source). In the three `Option PyVal` fields,
`none` models an absent key and `some PyVal.vnone` a key bound to `None`. -/
structure VarConfig where
  vtype : String
  required : Option PyVal := none
  default : Option PyVal := none
  description : Option PyVal := none

/-- Everything `truncate_description` (terraform_module_tool.py lines 28-63)
does before its final length check: placeholder description, the
required/optional tag, the default clause, and the JSON example for
non-primitive types. The unguarded `var_config['default']` reads in the
example branch are modelled as `Except` failures (`KeyError`). -/
def composeDescription (description : PyVal) (var_config : VarConfig) : Except String String :=
  let d0 := if pyTruthy description then pyStr description else "No description provided"
  let status := if pyTruthy (var_config.required.getD (PyVal.vbool false)) then "Required" else "Optional"
  let d1 := d0 ++ "\n[" ++ status ++ "]"
  let d2 :=
    match var_config.default with
    | some v =>
      if pyIsNone v then d1
      else
        let default_str := if pyIsCompound v then jsonDumps v else pyStr v
        d1 ++ "\n(Default value if not passed: " ++ default_str ++ ")"
    | none => d1
  if ¬ (["string", "number", "bool"].contains var_config.vtype) then
    if pyIn "list" (pyLower var_config.vtype) then
      match var_config.default with
      | none => Except.error "KeyError: default"
      | some v =>
        let ex := if pyTruthy v then jsonDumps v else "[\"item1\", \"item2\"]"
        Except.ok (d2 ++ "\nProvide as JSON string, example: " ++ ex)
    else if pyIn "map" (pyLower var_config.vtype) || pyIn "object" (pyLower var_config.vtype) then
      match var_config.default with
      | none => Except.error "KeyError: default"
      | some v =>
        let ex := if pyTruthy v then jsonDumps v else "\x7b\"key1\": \"value1\", \"key2\": \"value2\"\x7d"
        Except.ok (d2 ++ "\nProvide as JSON string, example: " ++ ex)
    else
      Except.ok (d2 ++ "\nProvide as JSON string")
  else
    Except.ok d2

/-- The final step of `truncate_description`: cut to 1024 characters with a
trailing ellipsis when the composed description exceeds the bound. -/
def finalTruncate (s : String) : String :=
  if s.length > MAX_DESCRIPTION_LENGTH then pyTake s (MAX_DESCRIPTION_LENGTH - 3) ++ "..." else s

/-- Embedding of `truncate_description` (terraform_module_tool.py lines
28-63): composition first, truncation as the last step. -/
def truncate_description (description : PyVal) (var_config : VarConfig) : Except String String :=
  (composeDescription description var_config).map finalTruncate

/-- A synthesized tool argument (the fields of the SDK `Arg` the source
sets). `default` holds the already-coerced value; in the config-driven
loader path the `source_config` argument carries a dictionary default. -/
structure Arg where
  name : String
  description : String
  argType : String
  required : Bool
  default : Option PyVal := none

/-- Synthesis of one argument from one discovered variable
(terraform_module_tool.py lines 115-156): type mapping, description
synthesis, required flag, and default coercion by target type. A failure
inside the block is re-raised as `Failed to process variable ...`, which
the source turns into a module-level failure. -/
def buildArg (var_name : String) (var_config : VarConfig) : Except String Arg :=
  let arg_type := map_terraform_type_to_arg_type var_config.vtype
  match truncate_description (var_config.description.getD (PyVal.vstr "No description")) var_config with
  | Except.error e => Except.error ("Failed to process variable " ++ var_name ++ ": " ++ e)
  | Except.ok description =>
    let arg : Arg :=
      { name := var_name
        description := description
        argType := arg_type
        required := pyTruthy (var_config.required.getD (PyVal.vbool false)) }
    match var_config.default with
    | some v =>
      if pyIsNone v then Except.ok arg
      else
        let d :=
          if arg_type = "str" then
            if pyIsCompound v then jsonDumps v else pyStr v
          else if arg_type = "int" then
            match pyIntOfFloat v with
            | some n => toString n
            | none => "0"
          else
            pyLower (pyStr v)
        Except.ok { arg with default := some (PyVal.vstr d) }
    | none => Except.ok arg

/-!
## Tool Assembler and Name Deriver
Embedding of `TerraformModuleTool.initialize_tool`
(terraform_module_tool.py lines 74-340), `_get_clean_module_name` and
`create_terraform_module_tool` (tools/__init__.py lines 113-212).
-/

/-- The `source` sub-dictionary of a tool configuration:
`{location, version, path}` of the module resolved source. -/
structure SourceConfig where
  location : String
  version : String
  path : Option String := none
  deriving DecidableEq

/-- The `tool_config` dictionary assembled by `create_terraform_module_tool`
(tools/__init__.py lines 187-196). -/
structure ToolConfig where
  name : String
  description : String
  source : SourceConfig
  metadata : List (String × PyVal) := []

/-- An assembled operation descriptor: the fields of the SDK `Tool` that the
source populates and that the claims talk about. The shell script `content`
and file specs are execution-template material outside the claims and are
not modelled. -/
structure Tool where
  name : String
  description : String
  args : List Arg
  env : List String
  secrets : List String
  action : String
  with_pr : Bool

/-- The result of one call to the external variable-discovery collaborator
(`TerraformModuleParser.get_variables()`), per spec section 4.3: a mapping of
variable names to metadata (the `vars` field models the `variables`
mapping; `variables` is a reserved word in Lean), plus warnings and
errors. -/
structure DiscoveryResult where
  vars : List (String × VarConfig) := []
  warnings : List String := []
  errors : List String := []

/-- Synthesis of the whole argument list of a module, one argument per
discovered variable in order, failing at the first variable that fails
(terraform_module_tool.py lines 114-160). -/
def buildArgs : List (String × VarConfig) → Except String (List Arg)
  | [] => Except.ok []
  | p :: rest =>
    match buildArg p.1 p.2 with
    | Except.error e => Except.error e
    | Except.ok a =>
      match buildArgs rest with
      | Except.error e => Except.error e
      | Except.ok rest_args => Except.ok (a :: rest_args)

/-- The per-action description template (`action_desc[current_action]`,
terraform_module_tool.py lines 166-172); an unknown action is a `KeyError`. -/
def actionDesc (current_action : String) : Except String String :=
  if current_action = "plan" then Except.ok "Plan infrastructure changes for"
  else if current_action = "apply" then Except.ok "Apply infrastructure changes to"
  else if current_action = "plan_pr" then Except.ok "Plan infrastructure changes and create PR for"
  else Except.error "KeyError: action"

/-- Embedding of the body of `TerraformModuleTool.initialize_tool`
(terraform_module_tool.py lines 74-340). `disc` is the result of the
discovery call the validator makes (the same external service the caller
consulted); `scriptsFound` models whether the glob over the adjacent
`scripts` directory found any script file. Every `raise` becomes an
`Except.error` carrying the raised message. -/
def init_tool (name : String) (module_config : ToolConfig) (action : String)
    (with_pr : Bool) (env : List String) (secrets : List String)
    (disc : DiscoveryResult) (scriptsFound : Bool) : Except String Tool :=
  match disc.errors with
  | e :: _ => Except.error ("Variable discovery failed: Failed to discover variables: " ++ e)
  | [] =>
    if disc.vars.isEmpty then
      Except.error ("Variable discovery failed: No variables found in module " ++ name)
    else
      match buildArgs disc.vars with
      | Except.error e => Except.error e
      | Except.ok args =>
        if args.isEmpty then
          Except.error ("No valid arguments created for module " ++ name)
        else
          let current_action := if action = "plan" ∧ with_pr then "plan_pr" else action
          match actionDesc current_action with
          | Except.error e => Except.error e
          | Except.ok adesc =>
            let tool_description :=
              adesc ++ " " ++ module_config.description ++ " (original source code: " ++
              module_config.source.location ++ ") - version: " ++ module_config.source.version ++
              " - This tool is managed by Kubiya and may not be updated to the latest version of the module. Please check the original source code for the latest version."
            if ¬ scriptsFound then
              Except.error "No script files found"
            else
              Except.ok
                { name := name
                  description := tool_description
                  args := args
                  env := env ++ ["SLACK_CHANNEL_ID", "SLACK_THREAD_TS", "KUBIYA_USER_EMAIL"]
                  secrets := secrets ++ ["SLACK_API_TOKEN", "GH_TOKEN"]
                  action := action
                  with_pr := with_pr }

/-- A canonical module reference, the output of the config normalizer, as
consumed by the name deriver and the batch path. A `none` field models an
absent key; `url` is `Option` because `_get_clean_module_name` and
`create_terraform_module_tool` read `module_config['url']` unguarded. -/
structure ModuleConfig where
  url : Option String := none
  ref : Option String := none
  path : Option String := none
  name : Option String := none
  description : Option String := none
  provider : Option String := none
  resource_type : Option String := none
  metadata : List (String × PyVal) := []

/-- The fallback arm of the name deriver (tools/__init__.py lines 159-162):
last path segment, hyphens to underscores, non-word characters removed,
lower-cased. -/
def fallbackCleanName (url : String) : String :=
  pyLower (pyFilterWord (pyReplaceChar ((pySplit url '/').getLastD "") '-' '_'))

/-- The URL-parsing arm of `_get_clean_module_name` (tools/__init__.py lines
134-162): strip a `/tree/...` suffix, then dispatch on git-hosting URL,
three-part registry coordinate, or fallback. The registry unpacking
`namespace, name, provider = url.split('/')` is modelled as fallible; its
guard makes the failure arm unreachable. -/
def nameFromUrlBody (url : String) : Except String String :=
  if pyStartsWith url "http://" || pyStartsWith url "https://" || pyStartsWith url "git@" then
    if pyIn "github.com" url || pyIn "gitlab.com" url then
      let parts := pySplit (pyRstripChars (pyRstripChars url ['/']) ['.', 'g', 'i', 't']) '/'
      let repo_name := parts.getLastD ""
      if pyStartsWith repo_name "terraform-" ∧ (pySplit repo_name '-').length ≥ 3 then
        let name_parts := pySplit repo_name '-'
        let pv := name_parts.getD 1 ""
        let resource := String.intercalate "_" (name_parts.drop 2)
        Except.ok (pyLower (pv ++ "_" ++ resource))
      else
        Except.ok (pyLower (pyReplaceChar repo_name '-' '_'))
    else
      Except.ok (fallbackCleanName url)
  else if url.toList.count '/' = 2 then
    match pySplit url '/' with
    | [_, nm, pv] => Except.ok (pyLower (pv ++ "_" ++ nm))
    | _ => Except.error "ValueError: unpack"
  else
    Except.ok (fallbackCleanName url)

/-- The URL arm entry point: strip a `/tree/...` suffix first
(tools/__init__.py lines 135-136), then dispatch. -/
def nameFromUrl (url0 : String) : Except String String :=
  nameFromUrlBody (if pyIn "/tree/" url0 then pySplitFirst url0 "/tree/" else url0)

/-- Embedding of `_get_clean_module_name` (tools/__init__.py lines 113-162):
explicit name, else provider and resource type, else parsed from the url.
The unguarded `module_config['url']` read is a `KeyError` when the url is
absent. -/
def _get_clean_module_name (module_config : ModuleConfig) : Except String String :=
  match module_config.name with
  | some n =>
    if n ≠ "" then Except.ok (pyReplaceChar (pyLower n) '-' '_')
    else nameFromConfigUrl module_config
  | none => nameFromConfigUrl module_config
where
  nameFromConfigUrl (mc : ModuleConfig) : Except String String :=
    match mc.url with
    | none => Except.error "KeyError: url"
    | some url =>
      match mc.provider, mc.resource_type with
      | some p, some r =>
        if p ≠ "" ∧ r ≠ "" then Except.ok (pyLower (p ++ "_" ++ r))
        else nameFromUrl url
      | _, _ => nameFromUrl url

/-!
## Batch Initializer
Embedding of `create_terraform_module_tool` and `_initialize_module_tools`
(tools/__init__.py lines 164-279). The external collaborators of one batch
run are collected into a `BatchEnv`: the variable-discovery service (both
discovery calls a module undergoes consult the same service for the same
module and are modelled by one result), the parsed ref reported by
`parser.source.get_ref()`, and whether the script files beside the package
are present.
-/

/-- External collaborators of a batch run. -/
structure BatchEnv where
  disc : ModuleConfig → DiscoveryResult
  parserRef : ModuleConfig → Option String
  scriptsFound : Bool

/-- The Python `a or b` chain on optional strings: first truthy operand,
else the last operand (`config.get('ref') or parser.source.get_ref() or
'latest'`). An empty string is falsy. -/
def firstTruthyStr (a b : Option String) (c : String) : String :=
  match a with
  | some s => if s ≠ "" then s else (match b with | some t => if t ≠ "" then t else c | none => c)
  | none => match b with | some t => if t ≠ "" then t else c | none => c

/-- Embedding of `create_terraform_module_tool` (tools/__init__.py lines
164-212). Any exception inside — a missing url, discovery errors reported
by the first discovery call, name-derivation failure, or a failure raised
by the tool validator — is caught and logged, producing `none`
(`Except.toOption` is the `try/except ... return None` idiom). -/
def create_terraform_module_tool (env : BatchEnv) (module_config : ModuleConfig)
    (action : String) (with_pr : Bool) : Option Tool :=
  match module_config.url with
  | none => none
  | some _ =>
    let disc := env.disc module_config
    if ¬ disc.errors.isEmpty then none
    else
      (Except.toOption (_get_clean_module_name module_config)).bind (fun module_name =>
        let tool_config : ToolConfig :=
          { name := module_name
            description := (match module_config.description with
              | some d => if d ≠ "" then d else "Terraform module for " ++ module_name
              | none => "Terraform module for " ++ module_name)
            source :=
              { location := module_config.url.getD ""
                version := firstTruthyStr module_config.ref (env.parserRef module_config) "latest"
                path := module_config.path }
            metadata := module_config.metadata }
        let action_suffix := if action = "plan" ∧ with_pr then "_plan_pr" else "_" ++ action
        let tool_name := "tf_" ++ module_name ++ action_suffix
        Except.toOption
          (init_tool tool_name tool_config action with_pr [] [] disc env.scriptsFound))

/-- The actions the batch driver iterates over
(`for action in ['plan', 'apply']`, tools/__init__.py line 261). -/
def batchActions : List String := ["plan", "apply"]

/-- One iteration of the module loop of `_initialize_module_tools`
(tools/__init__.py lines 256-274): the tools created for this module in
action order, and the error messages recorded for its failed actions. -/
def processModule (env : BatchEnv) (module_name : String) (mc : ModuleConfig) :
    List Tool × List String :=
  batchActions.foldl
    (fun acc action =>
      match create_terraform_module_tool env mc action false with
      | some t => (acc.1 ++ [t], acc.2)
      | none => (acc.1, acc.2 ++ ["Failed to create " ++ action ++ " tool for " ++ module_name]))
    ([], [])

/-- The whole module loop: tools and errors accumulated over the modules in
input order, each module contributing independently of the others. -/
def runModules (env : BatchEnv) : List (String × ModuleConfig) → List Tool × List String
  | [] => ([], [])
  | (n, mc) :: rest =>
    let here := processModule env n mc
    let later := runModules env rest
    (here.1 ++ later.1, here.2 ++ later.2)

/-- The aggregate configuration-error message
(`f"Failed to initialize any module tools: {'; '.join(errors)}"`). -/
def aggregateError (errors : List String) : String :=
  "Failed to initialize any module tools: " ++ String.intercalate "; " errors

/-- Embedding of `_initialize_module_tools` (tools/__init__.py lines
251-279): run every module, then raise the aggregate error exactly when
errors were recorded and no tool was produced, else return the produced
tools. (Lean cannot name the Python function, whose name contains a
reserved word; this is the same function.) -/
def _init_module_tools (env : BatchEnv) (module_configs : List (String × ModuleConfig)) :
    Except String (List Tool) :=
  let r := runModules env module_configs
  if ¬ r.2.isEmpty ∧ r.1.isEmpty then Except.error (aggregateError r.2)
  else Except.ok r.1

/-- The tools of one module, stated per action (specification-side
recombination used to express batch isolation). -/
def moduleTools (env : BatchEnv) (mc : ModuleConfig) : List Tool :=
  batchActions.filterMap (fun action => create_terraform_module_tool env mc action false)

/-- The error messages of one module, stated per action. -/
def moduleErrors (env : BatchEnv) (module_name : String) (mc : ModuleConfig) : List String :=
  batchActions.filterMap
    (fun action =>
      match create_terraform_module_tool env mc action false with
      | some _ => none
      | none => some ("Failed to create " ++ action ++ " tool for " ++ module_name))

/-- All tools a batch produces, assembled module by module. -/
def producedTools (env : BatchEnv) (module_configs : List (String × ModuleConfig)) : List Tool :=
  module_configs.flatMap (fun p => moduleTools env p.2)

/-- All error messages a batch records, assembled module by module. -/
def producedErrors (env : BatchEnv) (module_configs : List (String × ModuleConfig)) : List String :=
  module_configs.flatMap (fun p => moduleErrors env p.1 p.2)

/-!
## Config Normalizer
Embedding of `parse_module_urls` and `_normalize_module_config`
(tools/__init__.py lines 13-111). The four accepted input shapes are a
tagged union; entries of list-shaped input are arbitrary Python values.
The whole parse runs inside one `try`, so an uncaught exception from an
individual entry (modelled in `Except`) collapses the result to `[]`.
-/

/-- The four accepted shapes of the module-urls configuration value. -/
inductive UrlsInput where
  | str (s : String)
  | list (items : List PyVal)
  | dict (entries : List (String × PyVal))

/-- An intermediate or canonical module record: an insertion-ordered Python
dictionary. -/
abbrev ModuleRecord : Type := List (String × PyVal)

/-- Shape 1 (`"url1,url2"`): split on commas, strip, drop blank segments
(tools/__init__.py line 34). -/
def strToModules (s : String) : List ModuleRecord :=
  (pySplit s ',').filterMap
    (fun u => if pyStrip u ≠ "" then some [("url", PyVal.vstr (pyStrip u))] else none)

/-- Shapes 2 and 3, one list item (tools/__init__.py lines 38-47): a string
becomes `{"url": item.strip()}`; a dict is kept when it has a `url` key and
dropped with a warning otherwise; anything else is dropped with a warning. -/
def listItemToModule : PyVal → Option ModuleRecord
  | PyVal.vstr s => some [("url", PyVal.vstr (pyStrip s))]
  | PyVal.vdict d => if (pyLookup "url" d).isSome then some d else none
  | _ => none

/-- Shape 4, one `module_name -> module_config` entry (tools/__init__.py
lines 51-70). A non-dict config is skipped silently. A dict config reads
`source` with `module_config.get('source', '')` for the `'/' in source`
test, but then re-reads `module_config['source']` unguarded: a config
without a `source` key raises `KeyError`, and a `None`/numeric source makes
the containment test raise `TypeError`; both abort the whole parse. A
list- or dict-valued source passes the containment test (it is a membership
test there) and flows on as a non-string url. -/
def dictEntryToModule (module_name : String) (module_config : PyVal) :
    Except String (Option ModuleRecord) :=
  match module_config with
  | PyVal.vdict d =>
    match pyLookup "source" d with
    | none => Except.error "KeyError: source"
    | some (PyVal.vstr s) =>
      let url : PyVal :=
        if pyIn "/" s then
          if (pySplit s '/').length = 3 then PyVal.vstr ("registry.terraform.io/" ++ s)
          else PyVal.vstr s
        else PyVal.vstr s
      Except.ok (some (shapeFourRecord url module_name d))
    | some (PyVal.vlist l) => Except.ok (some (shapeFourRecord (PyVal.vlist l) module_name d))
    | some (PyVal.vdict sd) => Except.ok (some (shapeFourRecord (PyVal.vdict sd) module_name d))
    | some _ => Except.error "TypeError: argument of type is not iterable"
  | _ => Except.ok none
where
  shapeFourRecord (url : PyVal) (module_name : String) (d : List (String × PyVal)) : ModuleRecord :=
    [("url", url),
     ("name", PyVal.vstr module_name),
     ("version", pyGetD d "version" PyVal.vnone),
     ("auto_discover", pyGetD d "auto_discover" (PyVal.vbool true)),
     ("instructions", pyGetD d "instructions" PyVal.vnone),
     ("variables", pyGetD d "variables" (PyVal.vdict []))]

/-- Embedding of `_normalize_module_config` (tools/__init__.py lines
88-111): require a non-blank string url, rebuild the record with the fixed
key set (`normalizedFields`, its `ref` entry realizing the
`ref or version or branch` chain), and keep only keys bound to non-`None`
values. A missing url key (`KeyError`) or a non-string url
(`AttributeError` on `.strip()`) is caught inside this function, yielding
`none`. -/
def normalizedFields (config : ModuleRecord) (url : String) : ModuleRecord :=
  [("url", PyVal.vstr url),
   ("ref",
     if pyTruthy (pyGetD config "ref" PyVal.vnone) then pyGetD config "ref" PyVal.vnone
     else if pyTruthy (pyGetD config "version" PyVal.vnone) then pyGetD config "version" PyVal.vnone
     else pyGetD config "branch" PyVal.vnone),
   ("path", pyGetD config "path" PyVal.vnone),
   ("name", pyGetD config "name" PyVal.vnone),
   ("description", pyGetD config "description" PyVal.vnone),
   ("provider", pyGetD config "provider" PyVal.vnone),
   ("resource_type", pyGetD config "resource_type" PyVal.vnone),
   ("metadata", pyGetD config "metadata" (PyVal.vdict []))]

/-- See the doc comment above: the fixed key set rebuilt by the
normalizer, with the Python `or` chain for `ref`. -/
def _normalize_module_config (config : ModuleRecord) : Option ModuleRecord :=
  match pyLookup "url" config with
  | some (PyVal.vstr u0) =>
    if pyStrip u0 = "" then none
    else some ((normalizedFields config (pyStrip u0)).filter (fun p => !(pyIsNone p.2)))
  | some _ => none
  | none => none

/-- The shape-4 entry loop, in input order, stopping at the first entry
whose processing raises. -/
def dictEntriesToModules : List (String × PyVal) → Except String (List ModuleRecord)
  | [] => Except.ok []
  | (nm, cfg) :: rest =>
    match dictEntryToModule nm cfg with
    | Except.error e => Except.error e
    | Except.ok none => dictEntriesToModules rest
    | Except.ok (some m) =>
      match dictEntriesToModules rest with
      | Except.error e => Except.error e
      | Except.ok ms => Except.ok (m :: ms)

/-- The fallible body of `parse_module_urls`: produce the intermediate
records for the given shape, then normalize each, dropping the ones that
fail. -/
def parseModuleUrlsE : UrlsInput → Except String (List ModuleRecord)
  | UrlsInput.str s => Except.ok ((strToModules s).filterMap _normalize_module_config)
  | UrlsInput.list items =>
    Except.ok ((items.filterMap listItemToModule).filterMap _normalize_module_config)
  | UrlsInput.dict entries =>
    match dictEntriesToModules entries with
    | Except.error e => Except.error e
    | Except.ok ms => Except.ok (ms.filterMap _normalize_module_config)

/-- Embedding of `parse_module_urls` (tools/__init__.py lines 13-86): a
falsy input (`if not urls_input`) yields `[]` at once; an exception
escaping an individual entry is caught at the whole-parse level and
yields `[]`. -/
def inputFalsy : UrlsInput → Bool
  | UrlsInput.str s => s == ""
  | UrlsInput.list items => items.isEmpty
  | UrlsInput.dict entries => entries.isEmpty

/-- See the doc comment above: falsy-input check, then the guarded body. -/
def parse_module_urls (urls_input : UrlsInput) : List ModuleRecord :=
  if inputFalsy urls_input then []
  else
    match parseModuleUrlsE urls_input with
    | Except.ok l => l
    | Except.error _ => []

/-!
## Config-driven loader
Embedding of `_create_arg_from_variable` and `register_terraform_tools`
(tools/dynamic_tool_loader.py lines 10-109). The `TerraformVariable`
objects it consumes come from the external parser; `example_value` models
`var.get_example_value()`, whose implementation lives in that external
parser.
-/

/-- One validation rule dictionary: `{condition, error_message}` entries,
`none` modelling an absent key. -/
structure ValidationRule where
  condition : Option PyVal := none
  error_message : Option PyVal := none

/-- A discovered variable as exposed by the external parser to the
config-driven loader. -/
structure TFVariable where
  name : String
  description : Option String := none
  base_type : String
  example_value : String := ""
  validation_rules : List ValidationRule := []
  required : Bool := false
  default : Option PyVal := none

/-- Embedding of `_create_arg_from_variable` (dynamic_tool_loader.py lines
10-34): the documented description block, `type="string"` for every
variable, and a JSON-encoded default when one exists. -/
def _create_arg_from_variable (var : TFVariable) : Arg :=
  let d0 :=
    (match var.description with
     | some s => if s ≠ "" then s else "Variable: " ++ var.name
     | none => "Variable: " ++ var.name) ++ "\n\nType: " ++ var.base_type ++ "\n"
  let d1 :=
    if ["object", "map", "list", "set"].contains var.base_type then
      d0 ++ "\nExample Input:\n```json\n" ++ var.example_value ++ "\n```"
    else d0
  let d2 :=
    if ¬ var.validation_rules.isEmpty then
      d1 ++ "\nValidation Rules:\n" ++
        String.join (var.validation_rules.map
          (fun rule =>
            "- " ++ pyStr ((rule.error_message).getD ((rule.condition).getD PyVal.vnone)) ++ "\n"))
    else d1
  let d3 :=
    match var.default with
    | some v => d2 ++ "\nDefault: " ++ jsonDumps v
    | none => d2
  { name := var.name
    description := d3
    argType := "string"
    required := var.required
    default := var.default.map (fun v => PyVal.vstr (jsonDumps v)) }

/-- The per-module configuration dictionary the loader reads
(`config['description']`, `config['source']`, `config.get('env', [])`,
`config.get('secrets', [])`). -/
structure LoaderConfig where
  description : String
  source : PyVal
  env : List String := []
  secrets : List String := []

/-- The always-present, always-required `source_config` object argument
(dynamic_tool_loader.py lines 54-61). -/
def source_config_arg (source : PyVal) : Arg :=
  { name := "source_config"
    description := "Module source configuration"
    argType := "object"
    required := true
    default := some source }

/-- Embedding of `register_terraform_tools` (dynamic_tool_loader.py lines
36-109), returning the three descriptors it registers, in registration
order: plan, apply, and the show-variables descriptor. The plan and apply
descriptors carry the synthesized arguments plus `source_config`; the
variables descriptor carries only `source_config`. -/
def register_terraform_tools (module_name : String) (config : LoaderConfig)
    (vs : List TFVariable) : List Tool :=
  let variable_args := vs.map _create_arg_from_variable
  let plan_tool : Tool :=
    { name := "terraform_" ++ module_name ++ "_plan"
      description := "Plan changes for " ++ config.description
      args := variable_args ++ [source_config_arg config.source]
      env := config.env
      secrets := config.secrets
      action := "plan"
      with_pr := false }
  let apply_tool : Tool :=
    { name := "terraform_" ++ module_name ++ "_apply"
      description := "Apply changes for " ++ config.description
      args := variable_args ++ [source_config_arg config.source]
      env := config.env
      secrets := config.secrets
      action := "apply"
      with_pr := false }
  let vars_tool : Tool :=
    { name := "terraform_" ++ module_name ++ "_vars"
      description := "Show variables for " ++ config.description
      args := [source_config_arg config.source]
      env := config.env
      secrets := config.secrets
      action := "vars"
      with_pr := false }
  [plan_tool, apply_tool, vars_tool]

/-!
## Provider Reverse-Engineering Factory
The static provider table is embedded from
`TerraformerTool.SUPPORTED_PROVIDERS` (tools/terraformer_tool.py lines
44-60). The enabled-providers function is called as
`TerraformerTool.get_enabled_providers(config)` (tools/__init__.py line
284) but its definition is not among the provided sources, so it is
modelled from the specification.
-/

/-- One entry of the static provider table: display name, resource
vocabulary, required credential environment variables. -/
structure ProviderConfig where
  display_name : String
  resources : List String
  env_vars : List String

/-- Embedding of `TerraformerTool.SUPPORTED_PROVIDERS`
(terraformer_tool.py lines 44-60). -/
def SUPPORTED_PROVIDERS : List (String × ProviderConfig) :=
  [("aws", { display_name := "AWS"
             resources := ["vpc", "subnet", "security-group", "elb", "rds", "iam"]
             env_vars := ["AWS_PROFILE"] }),
   ("gcp", { display_name := "Google Cloud"
             resources := ["compute", "storage", "sql", "iam"]
             env_vars := ["GOOGLE_CREDENTIALS", "GOOGLE_PROJECT"] }),
   ("azure", { display_name := "Azure"
               resources := ["compute", "network", "storage", "database"]
               env_vars := ["AZURE_SUBSCRIPTION_ID", "AZURE_CLIENT_ID", "AZURE_CLIENT_SECRET", "AZURE_TENANT_ID"] })]

/-- The two key-value pairs the enabled-providers function reads, taken
from either the nested `terraform` section or the legacy flat top level. -/
structure ReverseTfSection where
  enable_reverse_terraform : Option PyVal := none
  reverse_terraform_providers : Option PyVal := none

/-- The two accepted configuration shapes for the provider factory: nested
`{terraform: {...}}` or the legacy flat layout with the same two keys. -/
inductive ProvidersConfig where
  | nested (tf : ReverseTfSection)
  | flat (tf : ReverseTfSection)

/-- The effective section after normalizing either shape to the nested
form. -/
def effectiveSection : ProvidersConfig → ReverseTfSection
  | ProvidersConfig.nested tf => tf
  | ProvidersConfig.flat tf => tf

/-- Modelled from the spec: `TerraformerTool.get_enabled_providers` is
invoked by `_initialize_reverse_terraform_tools` (tools/__init__.py line
284) but its definition is missing from the provided sources. Per spec
section 4.7 it normalizes the two shapes, returns the empty list when
`enable_reverse_terraform` is false or absent, treats a single provider
string as a one-element list, keeps requested providers that are in the
supported table, and drops each unsupported one with a warning (one more
warning when nothing survives). Returns the surviving providers and the
warning messages. -/
def get_enabled_providers (config : ProvidersConfig) : List String × List String :=
  let tf := effectiveSection config
  if ¬ pyTruthy ((tf.enable_reverse_terraform).getD PyVal.vnone) then ([], [])
  else
    let requested : List String :=
      match tf.reverse_terraform_providers with
      | some (PyVal.vstr s) => [s]
      | some (PyVal.vlist l) => l.filterMap (fun v => match v with | PyVal.vstr s => some s | _ => none)
      | _ => []
    let supported := SUPPORTED_PROVIDERS.map Prod.fst
    let providers := requested.filter (fun p => supported.contains p)
    let warnings := (requested.filter (fun p => ¬ supported.contains p)).map
      (fun p => "Unsupported provider: " ++ p)
    if providers.isEmpty then (providers, warnings ++ ["No valid providers requested"])
    else (providers, warnings)

/-!
## Statement-side predicates
-/

/-- Every key of the record is bound to a value other than `None`. -/
def recordNoNone (rec : ModuleRecord) : Bool :=
  rec.all (fun p => !(pyIsNone p.2))

/-- The record binds `url` to a non-empty string that is its own trimming. -/
def recordUrlOk (rec : ModuleRecord) : Bool :=
  match pyLookup "url" rec with
  | some (PyVal.vstr u) => u != "" && (pyStrip u == u)
  | _ => false

/-- Whether an `Except` computation succeeded. -/
def exceptIsOk {ε α : Type} : Except ε α → Bool
  | Except.ok _ => true
  | Except.error _ => false

/-- A concrete batch environment whose discovery service reports one error
for every module; used to instantiate the batch theorems. -/
def failingEnv : BatchEnv :=
  { disc := fun _ => { errors := ["boom"] }
    parserRef := fun _ => none
    scriptsFound := true }

/-- A concrete module reference; used to instantiate the batch theorems. -/
def sampleModule : ModuleConfig :=
  { url := some "u" }

/-!
## Helper lemmas
-/

theorem splitChar_ne_nil (c : Char) (l : List Char) : splitChar c l ≠ [] := by
  induction l with
  | nil => simp [splitChar]
  | cons x xs ih =>
    by_cases h : x = c
    · simp [splitChar, h]
    · simp only [splitChar, if_neg h]
      cases hs : splitChar c xs with
      | nil => exact absurd hs ih
      | cons a t => simp

theorem splitChar_length (c : Char) (l : List Char) :
    (splitChar c l).length = l.count c + 1 := by
  induction l with
  | nil => simp [splitChar]
  | cons x xs ih =>
    by_cases h : x = c
    · simp [splitChar, h, List.count_cons, ih]
    · simp only [splitChar, if_neg h]
      cases hs : splitChar c xs with
      | nil => exact absurd hs (splitChar_ne_nil c xs)
      | cons a t =>
        have := ih
        rw [hs] at this
        simp only [List.length_cons] at this ⊢
        simp [List.count_cons, h, ← this]

theorem dropWhile_head_not {α : Type} (p : α → Bool) (l : List α) (x : α) (xs : List α)
    (h : l.dropWhile p = x :: xs) : p x = false := by
  induction l with
  | nil => simp [List.dropWhile] at h
  | cons a t ih =>
    by_cases hp : p a
    · simp [List.dropWhile, hp] at h
      exact ih h
    · simp [List.dropWhile, hp] at h
      rw [← h.1]
      exact Bool.not_eq_true _ ▸ (by simpa using hp)

theorem stripBoth_front {a : Type} (p : a → Bool) (l : List a) :
    (stripBoth p l).dropWhile p = stripBoth p l := by
  cases hc : stripBoth p l with
  | nil => simp
  | cons x xs =>
    have hpre : stripBoth p l <+: l.dropWhile p := by
      have h2 : ((l.dropWhile p).reverse.dropWhile p) <:+ (l.dropWhile p).reverse :=
        List.dropWhile_suffix p
      have h3 := List.reverse_prefix.mpr h2
      simpa [stripBoth] using h3
    rw [hc] at hpre
    obtain ⟨t, ht⟩ := hpre
    have ht2 : l.dropWhile p = x :: (xs ++ t) := by rw [← ht]; simp
    have hx : p x = false := dropWhile_head_not p l x (xs ++ t) ht2
    simp [List.dropWhile, hx]

theorem stripBoth_idem {a : Type} (p : a → Bool) (l : List a) :
    stripBoth p (stripBoth p l) = stripBoth p l := by
  have h1 := stripBoth_front p l
  show (((stripBoth p l).dropWhile p).reverse.dropWhile p).reverse = stripBoth p l
  rw [h1]
  have h2 : (stripBoth p l).reverse = (l.dropWhile p).reverse.dropWhile p := by
    simp [stripBoth]
  rw [h2, List.dropWhile_idempotent, ← h2, List.reverse_reverse]

theorem pyStrip_idem (s : String) : pyStrip (pyStrip s) = pyStrip s := by
  unfold pyStrip
  have : (String.mk (stripBoth pyIsSpace s.toList)).toList = stripBoth pyIsSpace s.toList := rfl
  rw [this, stripBoth_idem]

theorem buildArgs_ok_nil (vs : List (String × VarConfig))
    (h : buildArgs vs = Except.ok []) : vs = [] := by
  cases vs with
  | nil => rfl
  | cons p rest =>
    simp only [buildArgs] at h
    cases h1 : buildArg p.1 p.2 with
    | error e => rw [h1] at h; exact absurd h (by simp)
    | ok a =>
      rw [h1] at h
      cases h2 : buildArgs rest with
      | error e => rw [h2] at h; exact absurd h (by simp)
      | ok r => rw [h2] at h; simp at h

theorem buildArgs_error_of_mem (vs : List (String × VarConfig)) (n : String) (vc : VarConfig)
    (hmem : (n, vc) ∈ vs) (e : String) (he : buildArg n vc = Except.error e) :
    exceptIsOk (buildArgs vs) = false := by
  induction vs with
  | nil => simp at hmem
  | cons p rest ih =>
    simp only [buildArgs]
    rcases List.mem_cons.mp hmem with heq | htl
    · have hp : buildArg p.1 p.2 = Except.error e := by rw [← heq]; exact he
      simp [hp, exceptIsOk]
    · cases h1 : buildArg p.1 p.2 with
      | error _ => rfl
      | ok a =>
        cases h2 : buildArgs rest with
        | error _ => rfl
        | ok r =>
          have hcontra := ih htl
          rw [h2] at hcontra
          simp [exceptIsOk] at hcontra

theorem pySplit_length (s : String) (c : Char) : (pySplit s c).length = s.toList.count c + 1 := by
  unfold pySplit
  rw [List.length_map, splitChar_length]

theorem nameFromUrlBody_ok (url : String) : ∃ s, nameFromUrlBody url = Except.ok s := by
  simp only [nameFromUrlBody]
  repeat' split
  any_goals exact ⟨_, rfl⟩
  rename_i hns hcount ms hmatch
  exfalso
  have hlen : (pySplit url '/').length = 3 := by
    rw [pySplit_length, hcount]
  rcases hsp : pySplit url '/' with _ | ⟨a, _ | ⟨b, _ | ⟨c, _ | rest⟩⟩⟩ <;>
    rw [hsp] at hlen <;> simp at hlen
  exact hmatch a b c hsp

theorem nameFromUrl_ok (url0 : String) : ∃ s, nameFromUrl url0 = Except.ok s := by
  unfold nameFromUrl
  exact nameFromUrlBody_ok _

theorem nameFromConfigUrl_ok (mc : ModuleConfig) (u : String) (h : mc.url = some u) :
    ∃ s, _get_clean_module_name.nameFromConfigUrl mc = Except.ok s := by
  unfold _get_clean_module_name.nameFromConfigUrl
  rw [h]
  cases hp : mc.provider with
  | none => exact nameFromUrl_ok u
  | some p =>
    cases hr : mc.resource_type with
    | none => exact nameFromUrl_ok u
    | some r =>
      by_cases hpr : p ≠ "" ∧ r ≠ ""
      · refine ⟨pyLower (p ++ "_" ++ r), ?_⟩
        simp [hpr]
      · simp only [hpr, if_false]
        exact nameFromUrl_ok u

/-!
## Claim theorems
-/

/-- C1 (counterexample): the type mapper does not return the literal
`"string"`: on `"list(string)"` (and on `"string"` itself) it returns the
SDK tag `"str"`, so its range is not contained in
`{"bool", "int", "string"}`. -/
theorem map_type_counterexample :
    map_terraform_type_to_arg_type "list(string)" ≠ "string" ∧
      map_terraform_type_to_arg_type "list(string)" = "str" := by
  constructor
  · have h : map_terraform_type_to_arg_type "list(string)" = "str" := rfl
    rw [h]
    decide
  · rfl

/-- C1 (amended): the type mapper is total and its result is always one of
the three SDK tags `"bool"`, `"int"`, `"str"`: a base type of `bool` maps
to `"bool"`, a base type of `number` maps to `"int"`, and every other base
type (including parameterized forms such as `"list(string)"`) maps to
`"str"`. -/
theorem map_type_total (t : String) :
    (map_terraform_type_to_arg_type t = "bool" ∨ map_terraform_type_to_arg_type t = "int" ∨
      map_terraform_type_to_arg_type t = "str") ∧
    map_terraform_type_to_arg_type "bool" = "bool" ∧
    map_terraform_type_to_arg_type "number" = "int" ∧
    map_terraform_type_to_arg_type "list(string)" = "str" ∧
    map_terraform_type_to_arg_type "string" = "str" ∧
    map_terraform_type_to_arg_type "map(any)" = "str" := by
  refine ⟨?_, rfl, rfl, rfl, rfl, rfl⟩
  by_cases h1 : base_type_of t = "bool"
  · left
    simp [map_terraform_type_to_arg_type, h1]
  · by_cases h2 : base_type_of t = "number"
    · right; left
      simp [map_terraform_type_to_arg_type, h1, h2]
    · right; right
      simp [map_terraform_type_to_arg_type, h1, h2]

/-- C7: the name deriver maps the git-hosting URL
`https://github.com/terraform-aws-modules/terraform-aws-vpc` and the
three-part registry coordinate `terraform-aws-modules/vpc/aws` to the same
derived name `aws_vpc`. -/
theorem derive_name_examples :
    _get_clean_module_name
        { url := some "https://github.com/terraform-aws-modules/terraform-aws-vpc" } =
      Except.ok "aws_vpc" ∧
    _get_clean_module_name { url := some "terraform-aws-modules/vpc/aws" } =
      Except.ok "aws_vpc" :=
  ⟨rfl, rfl⟩

/-- C9 (counterexample): the name deriver can return the empty string for a
non-empty url: the url `"abc/"` is non-empty, yet the derived name is
`""` (the fallback arm keeps only the final path segment, which is empty
here). -/
theorem derive_name_empty_counterexample :
    _get_clean_module_name { url := some "abc/" } = Except.ok "" ∧ "abc/" ≠ "" := by
  constructor
  · rfl
  · decide

/-- C9 (amended): the name deriver is total over module references whose
url field is present: it never raises for any input string; the result is
a best-effort sanitized string that can be empty even when the url is
non-empty. -/
theorem derive_name_never_raises (mc : ModuleConfig) (u : String) (h : mc.url = some u) :
    ∃ s, _get_clean_module_name mc = Except.ok s := by
  unfold _get_clean_module_name
  cases hn : mc.name with
  | none => exact nameFromConfigUrl_ok mc u h
  | some n =>
    by_cases hne : n ≠ ""
    · refine ⟨pyReplaceChar (pyLower n) '-' '_', ?_⟩
      simp [hne]
    · simp only [hne, if_false]
      exact nameFromConfigUrl_ok mc u h

/-- Witness for C9: the amended theorem applied at a concrete reference. -/
theorem derive_name_never_raises_witness :
    ({ url := some "abc" } : ModuleConfig).url = some "abc" ∧
      ∃ s, _get_clean_module_name { url := some "abc" } = Except.ok s :=
  ⟨rfl, derive_name_never_raises { url := some "abc" } "abc" rfl⟩

theorem pyTake_length (s : String) (n : Nat) : (pyTake s n).length = min n s.length := by
  show (s.toList.take n).length = min n s.length
  rw [List.length_take]
  rfl

theorem finalTruncate_le (s : String) : (finalTruncate s).length ≤ MAX_DESCRIPTION_LENGTH := by
  unfold finalTruncate
  split
  · rename_i hgt
    rw [String.length_append, pyTake_length]
    have h3 : ("..." : String).length = 3 := rfl
    rw [h3]
    have hmin : min (MAX_DESCRIPTION_LENGTH - 3) s.length = MAX_DESCRIPTION_LENGTH - 3 := by
      apply Nat.min_eq_left
      unfold MAX_DESCRIPTION_LENGTH at hgt ⊢
      omega
    rw [hmin]
    unfold MAX_DESCRIPTION_LENGTH
    omega
  · rename_i hle
    omega

/-- C8: every description the synthesizer produces is at most 1024
characters long, and the bound is enforced by the ellipsis truncation
applied as the last step, after the whole composition. -/
theorem truncate_description_bound (d : PyVal) (vc : VarConfig) (r : String)
    (h : truncate_description d vc = Except.ok r) :
    r.length ≤ MAX_DESCRIPTION_LENGTH ∧
      ∃ u, composeDescription d vc = Except.ok u ∧ r = finalTruncate u := by
  unfold truncate_description at h
  cases hc : composeDescription d vc with
  | error e =>
    rw [hc] at h
    simp [Except.map] at h
  | ok u =>
    rw [hc] at h
    simp [Except.map] at h
    exact ⟨h ▸ finalTruncate_le u, u, rfl, h.symm⟩

/-- Witness for C8: the bound at a concrete variable. -/
theorem truncate_description_bound_witness :
    truncate_description (PyVal.vstr "hello") { vtype := "string" } =
        Except.ok "hello\n[Optional]" ∧
      ("hello\n[Optional]" : String).length ≤ MAX_DESCRIPTION_LENGTH :=
  ⟨rfl, (truncate_description_bound (PyVal.vstr "hello") { vtype := "string" } _ rfl).1⟩

theorem truncate_error_of_missing_default (d : PyVal) (vc : VarConfig)
    (h1 : vc.vtype ≠ "string" ∧ vc.vtype ≠ "number" ∧ vc.vtype ≠ "bool")
    (h2 : pyIn "list" (pyLower vc.vtype) = true ∨ pyIn "map" (pyLower vc.vtype) = true ∨
          pyIn "object" (pyLower vc.vtype) = true)
    (h3 : vc.default = none) :
    truncate_description d vc = Except.error "KeyError: default" := by
  unfold truncate_description composeDescription
  rw [h3]
  have hcond : ¬ ((["string", "number", "bool"].contains vc.vtype) = true) := by
    simp [h1.1, h1.2.1, h1.2.2]
  rw [if_pos hcond]
  by_cases hl : pyIn "list" (pyLower vc.vtype) = true
  · rw [if_pos hl]
    rfl
  · rw [if_neg hl]
    have homo : (pyIn "map" (pyLower vc.vtype) || pyIn "object" (pyLower vc.vtype)) = true := by
      rcases h2 with h | h | h
      · exact absurd h hl
      · rw [h]
        rfl
      · rw [h]
        simp
    rw [if_pos homo]
    rfl

theorem buildArg_error_of_missing_default (vn : String) (vc : VarConfig)
    (h1 : vc.vtype ≠ "string" ∧ vc.vtype ≠ "number" ∧ vc.vtype ≠ "bool")
    (h2 : pyIn "list" (pyLower vc.vtype) = true ∨ pyIn "map" (pyLower vc.vtype) = true ∨
          pyIn "object" (pyLower vc.vtype) = true)
    (h3 : vc.default = none) :
    buildArg vn vc =
      Except.error ("Failed to process variable " ++ vn ++ ": " ++ "KeyError: default") := by
  unfold buildArg
  rw [truncate_error_of_missing_default _ vc h1 h2 h3]

theorem init_tool_error_of_buildArgs_error (n : String) (cfg : ToolConfig) (action : String)
    (wpr : Bool) (ev sec : List String) (disc : DiscoveryResult) (sf : Bool)
    (hb : exceptIsOk (buildArgs disc.vars) = false) :
    exceptIsOk (init_tool n cfg action wpr ev sec disc sf) = false := by
  unfold init_tool
  cases herr : disc.errors with
  | cons a t => rfl
  | nil =>
    by_cases hv : disc.vars.isEmpty = true
    · simp [hv, exceptIsOk]
    · simp only [Bool.not_eq_true] at hv
      simp only [hv, Bool.false_eq_true, if_false]
      cases hba : buildArgs disc.vars with
      | error e2 => rfl
      | ok args =>
        rw [hba] at hb
        simp [exceptIsOk] at hb

theorem init_tool_isOk_action_eq (n1 n2 : String) (cfg : ToolConfig) (a1 a2 : String)
    (h1 : a1 = "plan" ∨ a1 = "apply") (h2 : a2 = "plan" ∨ a2 = "apply")
    (disc : DiscoveryResult) (sf : Bool) :
    exceptIsOk (init_tool n1 cfg a1 false [] [] disc sf) =
      exceptIsOk (init_tool n2 cfg a2 false [] [] disc sf) := by
  have hdesc : ∀ a, a = "plan" ∨ a = "apply" →
      ∃ d, actionDesc a = Except.ok d := by
    rintro a (rfl | rfl)
    · exact ⟨_, rfl⟩
    · exact ⟨_, rfl⟩
  unfold init_tool
  cases herr : disc.errors with
  | cons a t => rfl
  | nil =>
    by_cases hv : disc.vars.isEmpty = true
    · simp [hv, exceptIsOk]
    · simp only [Bool.not_eq_true] at hv
      simp only [hv, Bool.false_eq_true, if_false]
      cases hba : buildArgs disc.vars with
      | error e2 => rfl
      | ok args =>
        by_cases ha : args.isEmpty = true
        · simp [ha, exceptIsOk]
        · simp only [Bool.not_eq_true] at ha
          simp only [ha, Bool.false_eq_true, if_false]
          obtain ⟨d1, hd1⟩ := hdesc a1 h1
          obtain ⟨d2, hd2⟩ := hdesc a2 h2
          simp only [Bool.and_false, and_false, if_false, ite_false]
          rw [hd1, hd2]
          cases sf <;> simp [exceptIsOk]

theorem exceptIsOk_false_error {e a : Type} (E : Except e a) (h : exceptIsOk E = false) :
    ∃ err, E = Except.error err := by
  cases E with
  | error err => exact ⟨err, rfl⟩
  | ok v => simp [exceptIsOk] at h

theorem exceptIsOk_true_ok {e a : Type} (E : Except e a) (h : exceptIsOk E = true) :
    ∃ v, E = Except.ok v := by
  cases E with
  | error err => simp [exceptIsOk] at h
  | ok v => exact ⟨v, rfl⟩

theorem toOption_isSome {e a : Type} (E : Except e a) :
    (Except.toOption E).isSome = exceptIsOk E := by
  cases E <;> rfl

theorem toOption_ok {e a : Type} (v : a) :
    Except.toOption (Except.ok v : Except e a) = some v := rfl

theorem toOption_error {e a : Type} (err : e) :
    Except.toOption (Except.error err : Except e a) = none := rfl

theorem create_none_cases (env : BatchEnv) (mc : ModuleConfig) (action : String)
    (h : (env.disc mc).errors ≠ [] ∨ (env.disc mc).vars = [] ∨
      exceptIsOk (buildArgs (env.disc mc).vars) = false) :
    create_terraform_module_tool env mc action false = none := by
  unfold create_terraform_module_tool
  cases hu : mc.url with
  | none => rfl
  | some u =>
    cases herr : (env.disc mc).errors with
    | cons a t => simp [herr]
    | nil =>
      simp only [herr, List.isEmpty_nil, not_true, Bool.true_eq_false]
      rw [if_neg (by simp)]
      have hinit : ∀ (n : String) (cfg : ToolConfig),
          exceptIsOk (init_tool n cfg action false [] [] (env.disc mc) env.scriptsFound) = false := by
        intro n cfg
        rcases h with herr2 | hv | hb
        · exact absurd herr herr2
        · unfold init_tool
          rw [herr, hv]
          rfl
        · exact init_tool_error_of_buildArgs_error n cfg action false [] [] (env.disc mc)
            env.scriptsFound hb
      cases hn : _get_clean_module_name mc with
      | error e => rfl
      | ok module_name =>
        simp only [toOption_ok, Option.some_bind]
        obtain ⟨e2, he2⟩ := exceptIsOk_false_error _ (hinit _ _)
        rw [he2]
        rfl

theorem create_isSome_action_eq (env : BatchEnv) (mc : ModuleConfig) (a1 a2 : String)
    (h1 : a1 = "plan" ∨ a1 = "apply") (h2 : a2 = "plan" ∨ a2 = "apply") :
    (create_terraform_module_tool env mc a1 false).isSome =
      (create_terraform_module_tool env mc a2 false).isSome := by
  unfold create_terraform_module_tool
  cases hu : mc.url with
  | none => rfl
  | some u =>
    cases herr : (env.disc mc).errors with
    | cons a t => simp [herr]
    | nil =>
      simp only [herr, List.isEmpty_nil, not_true, Bool.true_eq_false]
      rw [if_neg (by simp), if_neg (by simp)]
      cases hn : _get_clean_module_name mc with
      | error e => rfl
      | ok module_name =>
        simp only [toOption_ok, Option.some_bind, Bool.false_eq_true, and_false, if_false]
        rw [toOption_isSome, toOption_isSome]
        exact init_tool_isOk_action_eq _ _ _ a1 a2 h1 h2 (env.disc mc) env.scriptsFound

theorem processModule_eq (env : BatchEnv) (n : String) (mc : ModuleConfig) :
    processModule env n mc = (moduleTools env mc, moduleErrors env n mc) := by
  unfold processModule moduleTools moduleErrors batchActions
  cases h1 : create_terraform_module_tool env mc "plan" false <;>
    cases h2 : create_terraform_module_tool env mc "apply" false <;>
    simp [List.foldl, List.filterMap, h1, h2]

theorem runModules_eq (env : BatchEnv) (ms : List (String × ModuleConfig)) :
    runModules env ms = (producedTools env ms, producedErrors env ms) := by
  induction ms with
  | nil => rfl
  | cons m rest ih =>
    obtain ⟨n, mc⟩ := m
    simp only [runModules, producedTools, producedErrors, List.flatMap_cons] at *
    rw [processModule_eq, ih]

/-- C2: the batch run decomposes module by module — each module contributes
its own tools and error messages independently of the other modules — and
the batch initializer returns the full produced set whenever it is
non-empty (failures only being recorded as messages), raising the single
aggregate configuration error built from every recorded per-module failure
exactly when errors were recorded and no descriptor was produced. -/
theorem batch_initializer_aggregate (env : BatchEnv) (ms : List (String × ModuleConfig)) :
    runModules env ms = (producedTools env ms, producedErrors env ms) ∧
    _init_module_tools env ms =
      (if ¬ (producedErrors env ms).isEmpty ∧ (producedTools env ms).isEmpty
       then Except.error (aggregateError (producedErrors env ms))
       else Except.ok (producedTools env ms)) := by
  refine ⟨runModules_eq env ms, ?_⟩
  unfold _init_module_tools
  rw [runModules_eq]

/-- C4: assembly is all-or-nothing per module. If discovery reported
errors, or discovery returned zero variables, or argument synthesis
produced zero arguments, the module contributes zero descriptors and at
least one error message is recorded; and in every case a module
contributes either none or all (two: plan and apply) of the descriptors
the batch path builds for it. -/
theorem assembly_all_or_nothing (env : BatchEnv) (nm : String) (mc : ModuleConfig) :
    (((env.disc mc).errors ≠ [] ∨ (env.disc mc).vars = [] ∨
        buildArgs (env.disc mc).vars = Except.ok []) →
      (processModule env nm mc).1 = [] ∧ (processModule env nm mc).2 ≠ []) ∧
    ((processModule env nm mc).1.length = 0 ∨ (processModule env nm mc).1.length = 2) := by
  constructor
  · intro h
    have h2 : (env.disc mc).errors ≠ [] ∨ (env.disc mc).vars = [] ∨
        exceptIsOk (buildArgs (env.disc mc).vars) = false := by
      rcases h with h | h | h
      · exact Or.inl h
      · exact Or.inr (Or.inl h)
      · exact Or.inr (Or.inl (buildArgs_ok_nil _ h))
    have hp := create_none_cases env mc "plan" h2
    have ha := create_none_cases env mc "apply" h2
    rw [processModule_eq]
    constructor
    · simp [moduleTools, batchActions, List.filterMap, hp, ha]
    · simp [moduleErrors, batchActions, List.filterMap, hp, ha]
  · rw [processModule_eq]
    cases h1 : create_terraform_module_tool env mc "plan" false <;>
      cases h2 : create_terraform_module_tool env mc "apply" false
    · left
      simp [moduleTools, batchActions, List.filterMap, h1, h2]
    · exfalso
      have hiso := create_isSome_action_eq env mc "plan" "apply" (Or.inl rfl) (Or.inr rfl)
      rw [h1, h2] at hiso
      simp at hiso
    · exfalso
      have hiso := create_isSome_action_eq env mc "plan" "apply" (Or.inl rfl) (Or.inr rfl)
      rw [h1, h2] at hiso
      simp at hiso
    · right
      simp [moduleTools, batchActions, List.filterMap, h1, h2]

/-- Witness for C4: a module whose discovery reports an error contributes
zero descriptors and a recorded error. -/
theorem assembly_all_or_nothing_witness :
    ((failingEnv.disc sampleModule).errors ≠ [] ∨
      (failingEnv.disc sampleModule).vars = [] ∨
      buildArgs (failingEnv.disc sampleModule).vars = Except.ok []) ∧
    (processModule failingEnv "m" sampleModule).1 = [] ∧
    (processModule failingEnv "m" sampleModule).2 ≠ [] :=
  ⟨Or.inl (by decide),
   (assembly_all_or_nothing failingEnv "m" sampleModule).1 (Or.inl (by decide))⟩

/-- C10: for every variable whose type string is not exactly one of
`string`, `number`, `bool` and mentions `list`, `map` or `object` as a
substring of its lower-casing, and whose metadata has no `default` key at
all, `truncate_description` raises `KeyError` on the unguarded
`var_config['default']` access of the example branch; and every module
whose discovery reports such a variable yields zero descriptors (the
exception aborts the creation of each of its tools). -/
theorem missing_default_aborts (d : PyVal) (vc : VarConfig)
    (h1 : vc.vtype ≠ "string" ∧ vc.vtype ≠ "number" ∧ vc.vtype ≠ "bool")
    (h2 : pyIn "list" (pyLower vc.vtype) = true ∨ pyIn "map" (pyLower vc.vtype) = true ∨
          pyIn "object" (pyLower vc.vtype) = true)
    (h3 : vc.default = none) :
    truncate_description d vc = Except.error "KeyError: default" ∧
      ∀ (env : BatchEnv) (nm vn : String) (mc : ModuleConfig),
        (vn, vc) ∈ (env.disc mc).vars → (processModule env nm mc).1 = [] := by
  refine ⟨truncate_error_of_missing_default d vc h1 h2 h3, ?_⟩
  intro env nm vn mc hmem
  have hb : exceptIsOk (buildArgs (env.disc mc).vars) = false :=
    buildArgs_error_of_mem _ vn vc hmem _ (buildArg_error_of_missing_default vn vc h1 h2 h3)
  have hp := create_none_cases env mc "plan" (Or.inr (Or.inr hb))
  have ha := create_none_cases env mc "apply" (Or.inr (Or.inr hb))
  rw [processModule_eq]
  simp [moduleTools, batchActions, List.filterMap, hp, ha]

/-- Witness for C10: the `KeyError` at a concrete complex-typed variable
with no default key. -/
theorem missing_default_aborts_witness :
    (({ vtype := "list(string)" } : VarConfig).default = none) ∧
      truncate_description (PyVal.vstr "d") { vtype := "list(string)" } =
        Except.error "KeyError: default" :=
  ⟨rfl,
   (missing_default_aborts (PyVal.vstr "d") { vtype := "list(string)" }
      ⟨by decide, by decide, by decide⟩ (Or.inl (by decide)) rfl).1⟩

/-- C3 (counterexample): not every emitted descriptor carries the full
synthesized argument set plus `source_config`: for a module with one
variable the show-variables descriptor has fewer arguments than the
synthesized set plus `source_config` (it carries only `source_config`). -/
theorem assembler_counterexample :
    ¬ (∀ t ∈ register_terraform_tools "m" { description := "d", source := PyVal.vdict [] }
          [{ name := "v", base_type := "string" }],
        t.args.length =
          (([({ name := "v", base_type := "string" } : TFVariable)].map
              _create_arg_from_variable) ++ [source_config_arg (PyVal.vdict [])]).length) := by
  decide

/-- C3 (amended): the config-driven assembler emits exactly three
descriptors per module — plan, apply and show-variables, in that order.
The plan and apply descriptors each carry the full synthesized argument
set plus the always-required `source_config` object argument; the
show-variables descriptor carries only `source_config`. The batch
initializer path emits at most two descriptors per module (plan and
apply; it has no vars or plan_pr action). -/
theorem assembler_descriptor_set (mn : String) (cfg : LoaderConfig) (vs : List TFVariable) :
    (register_terraform_tools mn cfg vs).length = 3 ∧
    (register_terraform_tools mn cfg vs).map Tool.name =
      ["terraform_" ++ mn ++ "_plan", "terraform_" ++ mn ++ "_apply",
       "terraform_" ++ mn ++ "_vars"] ∧
    (register_terraform_tools mn cfg vs).map Tool.args =
      [vs.map _create_arg_from_variable ++ [source_config_arg cfg.source],
       vs.map _create_arg_from_variable ++ [source_config_arg cfg.source],
       [source_config_arg cfg.source]] ∧
    (source_config_arg cfg.source).required = true ∧
    (∀ (env : BatchEnv) (nm : String) (mc : ModuleConfig),
      (processModule env nm mc).1.length ≤ 2) := by
  refine ⟨rfl, rfl, rfl, rfl, ?_⟩
  intro env nm mc
  rw [processModule_eq]
  cases h1 : create_terraform_module_tool env mc "plan" false <;>
    cases h2 : create_terraform_module_tool env mc "apply" false <;>
    simp [moduleTools, batchActions, List.filterMap, h1, h2]

/-- C6: requesting providers `["aws", "not-a-provider"]` with
reverse-terraform enabled (nested shape) yields exactly `["aws"]` and one
warning naming the unsupported entry; and whenever the effective
`enable_reverse_terraform` value is falsy or absent the function returns
no providers and no warnings. -/
theorem enabled_providers_filtering (cfg : ProvidersConfig) :
    get_enabled_providers (ProvidersConfig.nested
        { enable_reverse_terraform := some (PyVal.vbool true)
          reverse_terraform_providers :=
            some (PyVal.vlist [PyVal.vstr "aws", PyVal.vstr "not-a-provider"]) }) =
      (["aws"], ["Unsupported provider: not-a-provider"]) ∧
    (pyTruthy (((effectiveSection cfg).enable_reverse_terraform).getD PyVal.vnone) = false →
      get_enabled_providers cfg = ([], [])) := by
  refine ⟨rfl, ?_⟩
  intro h
  simp [get_enabled_providers, h]

/-- Witness for C6: a flat-shaped configuration without the enable flag
yields no providers. -/
theorem enabled_providers_filtering_witness :
    pyTruthy (((effectiveSection (ProvidersConfig.flat {})).enable_reverse_terraform).getD
        PyVal.vnone) = false ∧
      get_enabled_providers (ProvidersConfig.flat {}) = ([], []) :=
  ⟨rfl, (enabled_providers_filtering (ProvidersConfig.flat {})).2 rfl⟩

theorem normalize_invariant (c rec : ModuleRecord)
    (h : _normalize_module_config c = some rec) :
    recordNoNone rec = true ∧ recordUrlOk rec = true := by
  unfold _normalize_module_config at h
  split at h
  · rename_i u0 heq
    split at h
    · exact absurd h (by simp)
    · rename_i hb
      injection h with h
      subst h
      constructor
      · unfold recordNoNone
        apply List.all_eq_true.mpr
        intro p hp
        have hmem := List.of_mem_filter hp
        simpa using hmem
      · unfold recordUrlOk normalizedFields
        rw [List.filter_cons_of_pos (by rfl)]
        simp [pyLookup, hb, pyStrip_idem]
  · exact absurd h (by simp)
  · exact absurd h (by simp)

theorem parseE_ok_shape (input : UrlsInput) (l : List ModuleRecord)
    (h : parseModuleUrlsE input = Except.ok l) :
    ∃ ms : List ModuleRecord, l = List.filterMap _normalize_module_config ms := by
  cases input with
  | str s =>
    simp only [parseModuleUrlsE] at h
    injection h with h
    exact ⟨strToModules s, h.symm⟩
  | list items =>
    simp only [parseModuleUrlsE] at h
    injection h with h
    exact ⟨items.filterMap listItemToModule, h.symm⟩
  | dict entries =>
    simp only [parseModuleUrlsE] at h
    cases hd : dictEntriesToModules entries with
    | error e =>
      rw [hd] at h
      exact absurd h (by simp)
    | ok ms =>
      rw [hd] at h
      injection h with h
      exact ⟨ms, h.symm⟩

theorem parse_urls_invariant (input : UrlsInput) (rec : ModuleRecord)
    (h : rec ∈ parse_module_urls input) :
    recordNoNone rec = true ∧ recordUrlOk rec = true := by
  unfold parse_module_urls at h
  by_cases hf : inputFalsy input = true
  · rw [if_pos hf] at h
    simp at h
  · rw [if_neg hf] at h
    cases hE : parseModuleUrlsE input with
    | error e =>
      rw [hE] at h
      simp at h
    | ok l =>
      rw [hE] at h
      have hl : rec ∈ l := h
      obtain ⟨ms, rfl⟩ := parseE_ok_shape input l hE
      obtain ⟨c, _, hc⟩ := List.mem_filterMap.mp hl
      exact normalize_invariant c rec hc

theorem dictEntries_error_of_missing_source (entries : List (String × PyVal)) (nm : String)
    (d : List (String × PyVal)) (hmem : (nm, PyVal.vdict d) ∈ entries)
    (hs : pyLookup "source" d = none) :
    ∃ e, dictEntriesToModules entries = Except.error e := by
  induction entries with
  | nil => simp at hmem
  | cons p rest ih =>
    obtain ⟨a, b⟩ := p
    rcases List.mem_cons.mp hmem with heq | htl
    · obtain ⟨h1, h2⟩ := Prod.mk.injEq .. |>.mp heq.symm
      refine ⟨"KeyError: source", ?_⟩
      simp only [dictEntriesToModules]
      rw [h2]
      simp [dictEntryToModule, hs]
    · cases h1 : dictEntryToModule a b with
      | error e => exact ⟨e, by simp [dictEntriesToModules, h1]⟩
      | ok v =>
        obtain ⟨e, he⟩ := ih htl
        cases v with
        | none => exact ⟨e, by simp [dictEntriesToModules, h1, he]⟩
        | some m => exact ⟨e, by simp [dictEntriesToModules, h1, he]⟩

/-- C5: every record the normalizer returns binds only non-None values and
carries a non-empty, already-trimmed string url; in the string and list
shapes every entry that fails normalization is dropped individually while
the rest are normalized and returned; but in the mapping shape an entry
whose config lacks the `source` key aborts the whole parse with a
`KeyError`, collapsing the result to the empty list. -/
theorem normalizer_behavior :
    (∀ (input : UrlsInput) (rec : ModuleRecord), rec ∈ parse_module_urls input →
      recordNoNone rec = true ∧ recordUrlOk rec = true) ∧
    (∀ s, parse_module_urls (UrlsInput.str s) =
      (strToModules s).filterMap _normalize_module_config) ∧
    (∀ items, parse_module_urls (UrlsInput.list items) =
      (items.filterMap listItemToModule).filterMap _normalize_module_config) ∧
    (∀ (entries : List (String × PyVal)) (nm : String) (d : List (String × PyVal)),
      (nm, PyVal.vdict d) ∈ entries → pyLookup "source" d = none →
      parse_module_urls (UrlsInput.dict entries) = []) := by
  refine ⟨parse_urls_invariant, ?_, ?_, ?_⟩
  · intro s
    by_cases hs : s = ""
    · subst hs
      rfl
    · simp [parse_module_urls, parseModuleUrlsE, inputFalsy, hs]
  · intro items
    cases items with
    | nil => rfl
    | cons a t => simp [parse_module_urls, parseModuleUrlsE, inputFalsy]
  · intro entries nm d hmem hs
    cases entries with
    | nil => simp at hmem
    | cons p rest =>
      obtain ⟨e, he⟩ := dictEntries_error_of_missing_source (p :: rest) nm d hmem hs
      simp [parse_module_urls, parseModuleUrlsE, inputFalsy, he]

/-- C5 (counterexample): individual-entry dropping fails for the mapping
shape: a well-formed entry alone normalizes to one record, but adding a
sibling entry that lacks the `source` key makes the whole parse return
`[]`, dropping the well-formed entry too. -/
theorem normalizer_counterexample :
    (parse_module_urls (UrlsInput.dict
        [("a", PyVal.vdict [("source", PyVal.vstr "x/y/z")])])).length = 1 ∧
    parse_module_urls (UrlsInput.dict
        [("a", PyVal.vdict [("source", PyVal.vstr "x/y/z")]), ("b", PyVal.vdict [])]) = [] :=
  ⟨rfl, rfl⟩

/-- Witness for C5: the record invariants at a concrete parsed input, and
the whole-parse abort at a concrete mapping input. -/
theorem normalizer_behavior_witness :
    ([("url", PyVal.vstr "u"), ("metadata", PyVal.vdict [])] ∈
        parse_module_urls (UrlsInput.str "u")) ∧
      recordNoNone [("url", PyVal.vstr "u"), ("metadata", PyVal.vdict [])] = true ∧
      recordUrlOk [("url", PyVal.vstr "u"), ("metadata", PyVal.vdict [])] = true ∧
      (("b", PyVal.vdict []) ∈
          [("a", PyVal.vdict [("source", PyVal.vstr "x/y/z")]), ("b", PyVal.vdict [])]) ∧
      pyLookup "source" ([] : List (String × PyVal)) = none ∧
      parse_module_urls (UrlsInput.dict
          [("a", PyVal.vdict [("source", PyVal.vstr "x/y/z")]), ("b", PyVal.vdict [])]) = [] := by
  have hmem : [("url", PyVal.vstr "u"), ("metadata", PyVal.vdict [])] ∈
      parse_module_urls (UrlsInput.str "u") := by
    show _ ∈ [[("url", PyVal.vstr "u"), ("metadata", PyVal.vdict [])]]
    exact List.mem_singleton.mpr rfl
  have hmem2 : ("b", PyVal.vdict ([] : List (String × PyVal))) ∈
      [("a", PyVal.vdict [("source", PyVal.vstr "x/y/z")]), ("b", PyVal.vdict [])] :=
    List.mem_cons_of_mem _ (List.mem_singleton.mpr rfl)
  exact ⟨hmem, (normalizer_behavior.1 _ _ hmem).1, (normalizer_behavior.1 _ _ hmem).2,
    hmem2, rfl, normalizer_behavior.2.2.2 _ "b" [] hmem2 rfl⟩
